import Mathlib

set_option linter.unusedVariables false

/-
Shallow embedding of `src/controller/custom_controller.py` (artemis-hackathon).

The file embeds the two Twilio actions (`send_twilio_message`,
`verify_twilio_message`) and the overridden `done` action. External effects
are made explicit inputs:
  - the four environment variables are an explicit `TwilioEnv` of optional
    strings (`os.getenv` yields `None` when a variable is absent);
  - the outcome of the `curl` subprocess is a `CurlResult` (return code,
    stdout, stderr);
  - the outcome of `json.loads` on the stdout is a `JsonOutcome`: either a
    parsed `TwilioResponse` (a JSON object whose optional `messages` key
    holds a list of records with optional `body` and `from` keys) or a
    decode failure (`json.JSONDecodeError`).
Each action returns the `ActionResult` the Python code builds, paired with a
Bool recording whether the network subprocess was launched.

Python string operations used by the code are modelled character-wise so
that they compute in the kernel: `str.strip()` drops leading and trailing
whitespace, `str.lower()` lowercases each character, and truthiness of an
optional string (`not all([...])`, `if params.expected_message:`) is false
exactly on `None` and the empty string.
-/

namespace ArtemisController

/-- Mirror of `browser_use.agent.views.ActionResult` as used by this
controller: an is-done flag plus optional extracted content and error. -/
structure ActionResult where
  is_done : Bool := false
  extracted_content : Option String := none
  error : Option String := none
  deriving Repr, DecidableEq

/-- Parameter model `SendTwilioMessageAction` (line 29): a message body. -/
structure SendTwilioMessageAction where
  message : String
  deriving Repr, DecidableEq

/-- Parameter model `VerifyTwilioMessageAction` (line 32): an optional
expected message, defaulting to `None`. -/
structure VerifyTwilioMessageAction where
  expected_message : Option String := none
  deriving Repr, DecidableEq

/-- Mirror of `browser_use.controller.views.DoneAction`: the completion
text passed to the overridden `done` action. -/
structure DoneAction where
  text : String
  deriving Repr, DecidableEq

/-- Values of the four environment variables read by the actions
(lines 94-97 and 135-136); `none` models an unset variable. -/
structure TwilioEnv where
  account_sid : Option String
  auth_token : Option String
  to_number : Option String
  from_number : Option String
  deriving Repr, DecidableEq

/-- Outcome of the awaited `curl` subprocess (lines 116-122 and 151-157):
return code, decoded stdout and decoded stderr. -/
structure CurlResult where
  returncode : Int
  stdout : String
  stderr : String
  deriving Repr, DecidableEq

/-- One entry of the provider response list (lines 165-167): a JSON object
whose `body` and `from` keys may each be absent (`dict.get`). -/
structure InboundRecord where
  body : Option String
  from_number : Option String
  deriving Repr, DecidableEq

/-- Parsed provider response (lines 161-162): a JSON object whose
`messages` key, when present, holds the list of inbound records. -/
structure TwilioResponse where
  messages : Option (List InboundRecord)
  deriving Repr, DecidableEq

/-- Outcome of `json.loads(stdout)` (lines 161 and 187): a parsed response
or a `json.JSONDecodeError`. -/
inductive JsonOutcome where
  | parsed (response_data : TwilioResponse)
  | decodeError
  deriving Repr, DecidableEq

/-- Python truthiness of an optional string: `None` and `""` are falsy,
every other string truthy. Used by `not all([...])` (lines 99, 138) and by
`if params.expected_message:` (line 173). -/
def pyTruthy : Option String → Bool
  | none => false
  | some s => !(s == "")

/-- Whitespace recognised by Python `str.strip()` (ASCII range). -/
def pyIsSpace (c : Char) : Bool :=
  c == ' ' || c == '\t' || c == '\n' || c == '\r' || c == '\x0b' || c == '\x0c'

/-- Python `str.strip()`: drop leading and trailing whitespace. -/
def pyStrip (s : String) : String :=
  String.mk (((s.data.dropWhile pyIsSpace).reverse.dropWhile pyIsSpace).reverse)

/-- Python `str.lower()` (character-wise lowercasing). -/
def pyLower (s : String) : String :=
  String.mk (s.data.map Char.toLower)

/-- Fixed error message for missing credentials (lines 100 and 139). -/
def missingCredentialsMsg : String :=
  "Missing Twilio credentials in environment variables"

/-- Argument vector of the send `curl` invocation (lines 106-114). -/
def send_curl_command (account_sid auth_token to_number from_number message_body : String) :
    List String :=
  ["curl", "-X", "POST",
   "https://api.twilio.com/2010-04-01/Accounts/" ++ account_sid ++ "/Messages.json",
   "--data-urlencode", "To=" ++ to_number,
   "--data-urlencode", "From=" ++ from_number,
   "--data-urlencode", "Body=" ++ message_body,
   "-u", account_sid ++ ":" ++ auth_token]

/-- Argument vector of the verify `curl` invocation (lines 143-149). -/
def verify_curl_command (account_sid auth_token : String) : List String :=
  ["curl", "-s", "-X", "GET",
   "https://api.twilio.com/2010-04-01/Accounts/" ++ account_sid ++
     "/Messages.json?PageSize=2&Direction=inbound",
   "-u", account_sid ++ ":" ++ auth_token]

/-- Embedding of `send_twilio_message` (lines 92-130). The first component
is the returned `ActionResult`; the second records whether the `curl`
subprocess was launched (`false` on the fail-fast credential branch). -/
def send_twilio_message (env : TwilioEnv) (params : SendTwilioMessageAction)
    (curl : CurlResult) : ActionResult × Bool :=
  if !(pyTruthy env.account_sid && pyTruthy env.auth_token &&
       pyTruthy env.to_number && pyTruthy env.from_number) then
    (⟨false, none, some missingCredentialsMsg⟩, false)
  else
    let message_body := params.message
    let curl_command := send_curl_command (env.account_sid.getD "") (env.auth_token.getD "")
      (env.to_number.getD "") (env.from_number.getD "") message_body
    if curl.returncode == 0 then
      (⟨false, some "Message sent successfully", none⟩, true)
    else
      (⟨false, none, some ("Failed to send WhatsApp message: " ++ curl.stderr)⟩, true)

/-- Embedding of the verification of the selected record (lines 166-183):
normalise the selected body (`.get('body', '').strip().lower()`), then
compare against `params.expected_message.lower()` when the expected message
is truthy, and against the literal "yes" otherwise. -/
def verify_selected_record (params : VerifyTwilioMessageAction)
    (second_last_message : InboundRecord) : ActionResult :=
  let received_message := pyLower (pyStrip (second_last_message.body.getD ""))
  if pyTruthy params.expected_message then
    if received_message == pyLower (params.expected_message.getD "") then
      ⟨false, some "Message verified successfully.", none⟩
    else
      ⟨false, none, some "Received message does not match the expected message."⟩
  else
    if received_message == "yes" then
      ⟨false, some "Task completed successfully. User replied \x27Yes\x27.", none⟩
    else
      ⟨false, none, some ("User did not reply \x27Yes\x27. Received: " ++ received_message)⟩

/-- Embedding of `verify_twilio_message` (lines 133-194). The first
component is the returned `ActionResult`; the second records whether the
`curl` subprocess was launched. -/
def verify_twilio_message (env : TwilioEnv) (params : VerifyTwilioMessageAction)
    (curl : CurlResult) (js : JsonOutcome) : ActionResult × Bool :=
  if !(pyTruthy env.account_sid && pyTruthy env.auth_token) then
    (⟨false, none, some missingCredentialsMsg⟩, false)
  else if curl.returncode == 0 then
    match js with
    | .parsed response_data =>
        let messages := response_data.messages.getD []
        if h : 2 ≤ messages.length then
          (verify_selected_record params (messages.get ⟨1, by omega⟩), true)
        else
          (⟨false, none,
            some "Not enough messages found to retrieve the second-to-last one."⟩, true)
    | .decodeError =>
        (⟨false, none,
          some ("Error decoding Twilio message response: " ++ curl.stdout)⟩, true)
  else
    (⟨false, none, some ("Error receiving Twilio message. Error: " ++ curl.stderr)⟩, true)

/-- Embedding of the overridden `done` action (lines 80-89): it awaits
`send_twilio_message` — `send_result` stands for that awaited result, which
the body never reads — and unconditionally returns the completion result. -/
def done (params : DoneAction) (send_result : ActionResult) : ActionResult :=
  ⟨true, some ("Task completed: " ++ params.text), none⟩

/-- Exactly one of the content and error fields of a result is populated. -/
def exactlyOnePopulated (r : ActionResult) : Prop :=
  (r.extracted_content ≠ none ∧ r.error = none) ∨
  (r.extracted_content = none ∧ r.error ≠ none)

/-- Claim C1: with all four credentials present, `send_twilio_message`
returns the success result (confirmation content, no error) exactly when the
HTTP subprocess reports success (return code 0); on a non-zero return code
it instead returns a result whose error field carries the raw provider
error text (the decoded stderr). -/
theorem send_success_iff_zero_exit (env : TwilioEnv) (p : SendTwilioMessageAction)
    (curl : CurlResult)
    (henv : (pyTruthy env.account_sid && pyTruthy env.auth_token &&
             pyTruthy env.to_number && pyTruthy env.from_number) = true) :
    ((send_twilio_message env p curl).1 =
        ⟨false, some "Message sent successfully", none⟩ ↔ curl.returncode = 0) ∧
    (curl.returncode ≠ 0 →
      (send_twilio_message env p curl).1 =
        ⟨false, none, some ("Failed to send WhatsApp message: " ++ curl.stderr)⟩) := by
  unfold send_twilio_message
  by_cases hrc : curl.returncode = 0 <;> simp [henv, hrc]

/-- Witness for C1: a concrete fully-configured environment with a zero
return code yields the success result. -/
theorem send_success_iff_zero_exit_witness :
    (send_twilio_message ⟨some "AC1", some "tok", some "+1", some "+2"⟩ ⟨"hi"⟩
        ⟨0, "resp", ""⟩).1 = ⟨false, some "Message sent successfully", none⟩ :=
  (send_success_iff_zero_exit _ _ _ (by decide)).1.mpr rfl

/-- Claim C4: the overridden `done` action ignores the result of the
embedded send operation and unconditionally returns an is-done result with
content "Task completed: " followed by the text. -/
theorem done_reports_completion_unconditionally (params : DoneAction)
    (r1 r2 : ActionResult) :
    done params r1 = done params r2 ∧
    done params r1 = ⟨true, some ("Task completed: " ++ params.text), none⟩ :=
  ⟨rfl, rfl⟩

/-- Field exclusivity is preserved by a branch between two exclusive
results. -/
lemma exclusive_ite (c : Prop) [Decidable c] (X Y : ActionResult)
    (hX : exactlyOnePopulated X) (hY : exactlyOnePopulated Y) :
    exactlyOnePopulated (if c then X else Y) := by
  split <;> assumption

/-- Every result built by the selected-record comparison has exactly one
populated field. -/
lemma verify_selected_record_exclusive (q : VerifyTwilioMessageAction)
    (r : InboundRecord) : exactlyOnePopulated (verify_selected_record q r) := by
  unfold verify_selected_record
  split
  · exact exclusive_ite _ _ _ (by simp [exactlyOnePopulated]) (by simp [exactlyOnePopulated])
  · exact exclusive_ite _ _ _ (by simp [exactlyOnePopulated]) (by simp [exactlyOnePopulated])

/-- Claim C5: every result returned by `send_twilio_message` and by
`verify_twilio_message` has exactly one of the content and error fields
populated, never both. -/
theorem result_fields_exclusive (env : TwilioEnv) (p : SendTwilioMessageAction)
    (q : VerifyTwilioMessageAction) (curl : CurlResult) (js : JsonOutcome) :
    exactlyOnePopulated (send_twilio_message env p curl).1 ∧
    exactlyOnePopulated (verify_twilio_message env q curl js).1 := by
  constructor
  · unfold send_twilio_message
    repeat' split
    all_goals simp [exactlyOnePopulated]
  · unfold verify_twilio_message
    split
    · simp [exactlyOnePopulated]
    · split
      · rcases js with r | _
        · dsimp only
          split
          · exact verify_selected_record_exclusive q _
          · simp [exactlyOnePopulated]
        · simp [exactlyOnePopulated]
      · simp [exactlyOnePopulated]

/-- Claim C6: if any of the four credential environment variables is unset,
`send_twilio_message` fails fast with the configuration error result and
launches no subprocess. -/
theorem send_missing_credentials (env : TwilioEnv) (p : SendTwilioMessageAction)
    (curl : CurlResult)
    (h : env.account_sid = none ∨ env.auth_token = none ∨
         env.to_number = none ∨ env.from_number = none) :
    send_twilio_message env p curl =
      (⟨false, none, some missingCredentialsMsg⟩, false) := by
  unfold send_twilio_message
  rcases h with h | h | h | h <;> simp [h, pyTruthy]

/-- Witness for C6: with the account identifier unset, the send action
returns the configuration error and makes no network call. -/
theorem send_missing_credentials_witness :
    send_twilio_message ⟨none, some "tok", some "+1", some "+2"⟩ ⟨"hi"⟩ ⟨0, "resp", ""⟩ =
      (⟨false, none, some missingCredentialsMsg⟩, false) :=
  send_missing_credentials _ _ _ (Or.inl rfl)

/-- Claim C7: with credentials present and a zero return code, a response
body that `json.loads` cannot parse makes `verify_twilio_message` return a
parse-error result whose error text carries the raw response text verbatim
(as its final segment). -/
theorem verify_decode_error_surfaces_raw (env : TwilioEnv)
    (q : VerifyTwilioMessageAction) (curl : CurlResult)
    (henv : (pyTruthy env.account_sid && pyTruthy env.auth_token) = true)
    (hrc : curl.returncode = 0) :
    verify_twilio_message env q curl .decodeError =
      (⟨false, none,
        some ("Error decoding Twilio message response: " ++ curl.stdout)⟩, true) := by
  unfold verify_twilio_message
  simp [henv, hrc]

/-- Witness for C7: a concrete non-JSON stdout is surfaced verbatim inside
the decode-error message. -/
theorem verify_decode_error_surfaces_raw_witness :
    verify_twilio_message ⟨some "AC1", some "tok", some "+1", some "+2"⟩ ⟨none⟩
        ⟨0, "<html>throttled</html>", ""⟩ .decodeError =
      (⟨false, none,
        some "Error decoding Twilio message response: <html>throttled</html>"⟩, true) :=
  verify_decode_error_surfaces_raw _ _ _ (by decide) rfl

/-- Claim C8: an environment variable that is set to the empty string is
treated exactly like an unset one: both actions return the configuration
error result and launch no subprocess. -/
theorem empty_env_value_is_missing (env : TwilioEnv) (p : SendTwilioMessageAction)
    (q : VerifyTwilioMessageAction) (curl : CurlResult) (js : JsonOutcome) :
    ((env.account_sid = some "" ∨ env.auth_token = some "" ∨
      env.to_number = some "" ∨ env.from_number = some "") →
      send_twilio_message env p curl =
        (⟨false, none, some missingCredentialsMsg⟩, false)) ∧
    ((env.account_sid = some "" ∨ env.auth_token = some "") →
      verify_twilio_message env q curl js =
        (⟨false, none, some missingCredentialsMsg⟩, false)) := by
  constructor
  · intro h
    unfold send_twilio_message
    rcases h with h | h | h | h <;> simp [h, pyTruthy]
  · intro h
    unfold verify_twilio_message
    rcases h with h | h <;> simp [h, pyTruthy]

/-- Witness for C8: an empty auth token makes both actions fail fast with
the configuration error and no network call. -/
theorem empty_env_value_is_missing_witness :
    send_twilio_message ⟨some "AC1", some "", some "+1", some "+2"⟩ ⟨"hi"⟩ ⟨0, "r", ""⟩ =
      (⟨false, none, some missingCredentialsMsg⟩, false) ∧
    verify_twilio_message ⟨some "AC1", some "", some "+1", some "+2"⟩ ⟨none⟩ ⟨0, "r", ""⟩
        .decodeError =
      (⟨false, none, some missingCredentialsMsg⟩, false) :=
  ⟨(empty_env_value_is_missing _ ⟨"hi"⟩ ⟨none⟩ ⟨0, "r", ""⟩ .decodeError).1
      (Or.inr (Or.inl rfl)),
   (empty_env_value_is_missing _ ⟨"hi"⟩ ⟨none⟩ ⟨0, "r", ""⟩ .decodeError).2
      (Or.inr rfl)⟩

/-- Claim C3: with credentials present and a zero return code, a parsed
response list with fewer than 2 records makes `verify_twilio_message` fail
with the insufficient-data error whatever the expected message is, and with
2 or more records the record verified is exactly the one at position 1. -/
theorem verify_selects_index_one (env : TwilioEnv) (curl : CurlResult)
    (henv : (pyTruthy env.account_sid && pyTruthy env.auth_token) = true)
    (hrc : curl.returncode = 0) :
    (∀ (q : VerifyTwilioMessageAction) (msgs : List InboundRecord),
      msgs.length < 2 →
      verify_twilio_message env q curl (.parsed ⟨some msgs⟩) =
        (⟨false, none,
          some "Not enough messages found to retrieve the second-to-last one."⟩, true)) ∧
    (∀ (q : VerifyTwilioMessageAction) (msgs : List InboundRecord)
      (h2 : 2 ≤ msgs.length),
      verify_twilio_message env q curl (.parsed ⟨some msgs⟩) =
        (verify_selected_record q (msgs.get ⟨1, by omega⟩), true)) := by
  constructor
  · intro q msgs hlen
    unfold verify_twilio_message
    simp only [henv, hrc, Bool.not_true, Bool.false_eq_true, if_false, beq_self_eq_true,
      if_true, Option.getD_some]
    rw [dif_neg (by omega)]
  · intro q msgs h2
    unfold verify_twilio_message
    simp only [henv, hrc, Bool.not_true, Bool.false_eq_true, if_false, beq_self_eq_true,
      if_true, Option.getD_some]
    rw [dif_pos h2]

/-- Witness for C3: a one-record list yields the insufficient-data error,
and on a concrete two-record list the record at position 1 (body "no") is
the one compared, yielding its mismatch error. -/
theorem verify_selects_index_one_witness :
    verify_twilio_message ⟨some "AC1", some "tok", some "+1", some "+2"⟩ ⟨some "hi"⟩
        ⟨0, "r", ""⟩ (.parsed ⟨some [⟨some "only", some "+3"⟩]⟩) =
      (⟨false, none,
        some "Not enough messages found to retrieve the second-to-last one."⟩, true) ∧
    verify_twilio_message ⟨some "AC1", some "tok", some "+1", some "+2"⟩ ⟨none⟩
        ⟨0, "r", ""⟩
        (.parsed ⟨some [⟨some "yes", some "+3"⟩, ⟨some "no", some "+3"⟩]⟩) =
      (⟨false, none, some "User did not reply \x27Yes\x27. Received: no"⟩, true) :=
  ⟨(verify_selects_index_one _ _ (by decide) rfl).1 ⟨some "hi"⟩ _ (by decide),
   by
    rw [(verify_selects_index_one _ _ (by decide) rfl).2 ⟨none⟩
      [⟨some "yes", some "+3"⟩, ⟨some "no", some "+3"⟩] (by decide)]
    decide⟩

/-- Counterexample to claim C2 as stated: the code lowercases the expected
message but does not trim it. With expected message " confirmed" and
selected body "confirmed" the two trim-and-lowercase normalisations agree,
so the claim predicts success, yet the code reports a mismatch error. -/
theorem verify_trims_expected_counterexample :
    pyLower (pyStrip "confirmed") = pyLower (pyStrip " confirmed") ∧
    (verify_twilio_message ⟨some "AC1", some "tok", some "+1", some "+2"⟩
        ⟨some " confirmed"⟩ ⟨0, "r", ""⟩
        (.parsed ⟨some [⟨some "newest", some "+3"⟩, ⟨some "confirmed", some "+3"⟩]⟩)).1 =
      ⟨false, none, some "Received message does not match the expected message."⟩ := by
  constructor <;> decide

/-- Claim C2 amended: the selected body is normalised by trimming and
lowercasing, while the expected value is normalised by lowercasing only
(not trimmed); for every non-empty expected message the verification
succeeds exactly when the normalised body equals the lowercased expected
value. The concrete example of the claim (expected "Confirmed", body
"  CONFIRMED  ") still succeeds. -/
theorem verify_compares_lowercased_expected (env : TwilioEnv) (curl : CurlResult)
    (henv : (pyTruthy env.account_sid && pyTruthy env.auth_token) = true)
    (hrc : curl.returncode = 0)
    (e : String) (he : e ≠ "") (m0 : InboundRecord) (b : String) (f : Option String)
    (rest : List InboundRecord) :
    (verify_twilio_message env ⟨some e⟩ curl
        (.parsed ⟨some (m0 :: ⟨some b, f⟩ :: rest)⟩)).1.extracted_content =
      some "Message verified successfully." ↔
    pyLower (pyStrip b) = pyLower e := by
  unfold verify_twilio_message
  simp only [henv, hrc, Bool.not_true, Bool.false_eq_true, if_false, beq_self_eq_true,
    if_true, Option.getD_some]
  rw [dif_pos (by simp)]
  unfold verify_selected_record
  simp only [pyTruthy, List.get]
  have htr : (!(e == "")) = true := by simpa using he
  rw [if_pos htr]
  by_cases hb : pyLower (pyStrip b) = pyLower e <;> simp [hb]

/-- Witness for C2 amended: the concrete example of the claim succeeds. -/
theorem verify_compares_lowercased_expected_witness :
    (verify_twilio_message ⟨some "AC1", some "tok", some "+1", some "+2"⟩
        ⟨some "Confirmed"⟩ ⟨0, "r", ""⟩
        (.parsed ⟨some [⟨some "newest", some "+3"⟩,
          ⟨some "  CONFIRMED  ", some "+3"⟩]⟩)).1.extracted_content =
      some "Message verified successfully." :=
  (verify_compares_lowercased_expected _ _ (by decide) rfl "Confirmed" (by decide)
    ⟨some "newest", some "+3"⟩ "  CONFIRMED  " (some "+3") []).mpr (by decide)

/-- Claim C9: an empty expected message behaves exactly like an absent one
(the action result is identical for every input), so the verification falls
through to the sentinel branch and succeeds exactly when the normalised
body equals "yes". -/
theorem verify_empty_expected_is_sentinel (env : TwilioEnv) (curl : CurlResult)
    (js : JsonOutcome)
    (henv : (pyTruthy env.account_sid && pyTruthy env.auth_token) = true)
    (hrc : curl.returncode = 0) :
    verify_twilio_message env ⟨some ""⟩ curl js =
      verify_twilio_message env ⟨none⟩ curl js ∧
    (∀ (m0 : InboundRecord) (b : String) (f : Option String)
      (rest : List InboundRecord),
      (verify_twilio_message env ⟨some ""⟩ curl
          (.parsed ⟨some (m0 :: ⟨some b, f⟩ :: rest)⟩)).1.extracted_content.isSome =
        true ↔ pyLower (pyStrip b) = "yes") := by
  have hsel : ∀ r, verify_selected_record ⟨some ""⟩ r = verify_selected_record ⟨none⟩ r := by
    intro r
    unfold verify_selected_record
    rfl
  constructor
  · unfold verify_twilio_message
    simp only [hsel]
  · intro m0 b f rest
    unfold verify_twilio_message
    simp only [henv, hrc, Bool.not_true, Bool.false_eq_true, if_false, beq_self_eq_true,
      if_true, Option.getD_some]
    rw [dif_pos (by simp)]
    unfold verify_selected_record
    simp only [pyTruthy, List.get]
    rw [if_neg (by simp)]
    by_cases hb : pyLower (pyStrip b) = "yes" <;> simp [hb]

/-- Witness for C9: with an empty expected message the result coincides
with the no-expected-message result, and a body "  Yes " (trimmed and
lowercased to "yes") makes the verification succeed. -/
theorem verify_empty_expected_is_sentinel_witness :
    verify_twilio_message ⟨some "AC1", some "tok", some "+1", some "+2"⟩ ⟨some ""⟩
        ⟨0, "r", ""⟩ (.parsed ⟨some [⟨some "a", some "+3"⟩, ⟨some "  Yes ", some "+3"⟩]⟩) =
      verify_twilio_message ⟨some "AC1", some "tok", some "+1", some "+2"⟩ ⟨none⟩
        ⟨0, "r", ""⟩ (.parsed ⟨some [⟨some "a", some "+3"⟩, ⟨some "  Yes ", some "+3"⟩]⟩) ∧
    (verify_twilio_message ⟨some "AC1", some "tok", some "+1", some "+2"⟩ ⟨some ""⟩
        ⟨0, "r", ""⟩
        (.parsed ⟨some [⟨some "a", some "+3"⟩,
          ⟨some "  Yes ", some "+3"⟩]⟩)).1.extracted_content.isSome = true :=
  ⟨(verify_empty_expected_is_sentinel _ _ _ (by decide) rfl).1,
   ((verify_empty_expected_is_sentinel _ _
        (.parsed ⟨some [⟨some "a", some "+3"⟩, ⟨some "  Yes ", some "+3"⟩]⟩)
        (by decide) rfl).2 ⟨some "a", some "+3"⟩ "  Yes " (some "+3") []).mpr (by decide)⟩

/-- Claim C10: with credentials present and a zero return code, a parsed
response without a "messages" key yields the insufficient-data error (not a
parse error), and a selected record without a "body" key is verified
exactly as if its body were the empty string. -/
theorem verify_missing_keys_default (env : TwilioEnv)
    (q : VerifyTwilioMessageAction) (curl : CurlResult)
    (henv : (pyTruthy env.account_sid && pyTruthy env.auth_token) = true)
    (hrc : curl.returncode = 0) :
    verify_twilio_message env q curl (.parsed ⟨none⟩) =
      (⟨false, none,
        some "Not enough messages found to retrieve the second-to-last one."⟩, true) ∧
    (∀ (m0 : InboundRecord) (f : Option String) (rest : List InboundRecord),
      verify_twilio_message env q curl (.parsed ⟨some (m0 :: ⟨none, f⟩ :: rest)⟩) =
      verify_twilio_message env q curl (.parsed ⟨some (m0 :: ⟨some "", f⟩ :: rest)⟩)) := by
  constructor
  · unfold verify_twilio_message
    simp [henv, hrc]
  · intro m0 f rest
    unfold verify_twilio_message
    rfl

/-- Witness for C10: a concrete response with no "messages" key gives the
insufficient-data error, and a two-record list whose selected record lacks
a body behaves like one with an empty body. -/
theorem verify_missing_keys_default_witness :
    verify_twilio_message ⟨some "AC1", some "tok", some "+1", some "+2"⟩ ⟨none⟩
        ⟨0, "r", ""⟩ (.parsed ⟨none⟩) =
      (⟨false, none,
        some "Not enough messages found to retrieve the second-to-last one."⟩, true) ∧
    verify_twilio_message ⟨some "AC1", some "tok", some "+1", some "+2"⟩ ⟨none⟩
        ⟨0, "r", ""⟩ (.parsed ⟨some [⟨some "a", some "+3"⟩, ⟨none, some "+3"⟩]⟩) =
      verify_twilio_message ⟨some "AC1", some "tok", some "+1", some "+2"⟩ ⟨none⟩
        ⟨0, "r", ""⟩ (.parsed ⟨some [⟨some "a", some "+3"⟩, ⟨some "", some "+3"⟩]⟩) :=
  ⟨(verify_missing_keys_default _ _ _ (by decide) rfl).1,
   (verify_missing_keys_default _ _ _ (by decide) rfl).2 ⟨some "a", some "+3"⟩
     (some "+3") []⟩

end ArtemisController
